import Mathlib

/-!
Verification of the Turn Orchestration Engine of the story-ai-studio API
service: the heuristic narrative parser (`OpenAIProvider._parse_response`),
the session lifecycle route handlers, and the turn pipeline
(`StoryEngine.process_player_action`, `StoryEngine.start_story`, and the
`/sessions/{id}/action` route `perform_action`).

The Python source is embedded shallowly: database state is an explicit
record of lists (stories, sessions, players, events); each HTTP handler and
engine method becomes a pure function from the database state and the
request arguments to the committed database state and a result.  Fresh
UUIDs and the current time are passed in as arguments, and the text the
generation backend returns is a parameter (the backend is an external
collaborator).  A handler that raises before its commit returns the input
state unchanged, mirroring transaction rollback.

Python string primitives are modelled directly over the character list of
a Lean string, so that every definition evaluates by kernel reduction.
-/

deriving instance DecidableEq for Except

namespace StoryStudio

/-! ## Python string primitives -/

/-- The ASCII whitespace characters removed by Python's `str.strip()`. -/
def pyIsSpace (c : Char) : Bool :=
  c == ' ' || c == '\t' || c == '\n' || c == '\r' || c == '\x0B' || c == '\x0C'

/-- Python `s.strip()`: remove leading and trailing whitespace. -/
def pyStrip (s : String) : String :=
  ⟨((s.data.dropWhile pyIsSpace).reverse.dropWhile pyIsSpace).reverse⟩

/-- Python `s.startswith(pre)`. -/
def pyStartsWith (s pre : String) : Bool :=
  pre.data.isPrefixOf s.data

/-- Python `s.endswith(suf)`. -/
def pyEndsWith (s suf : String) : Bool :=
  suf.data.isSuffixOf s.data

/-- Helper for `pySplitNl`, accumulating the current line in reverse. -/
def splitNlAux : List Char → List Char → List String
  | [], cur => [⟨cur.reverse⟩]
  | c :: cs, cur =>
    if c == '\n' then ⟨cur.reverse⟩ :: splitNlAux cs []
    else splitNlAux cs (c :: cur)

/-- Python `s.split("\n")`. -/
def pySplitNl (s : String) : List String :=
  splitNlAux s.data []

/-- Python `s.split(":", 1)` restricted to the case used by the parser:
the pair (text before the first colon, text after it).  The parser only
calls this under the guard that the line contains a colon, which is exactly
when Python's two-way split succeeds (`len(parts) == 2`). -/
def splitColon1 (s : String) : String × String :=
  (⟨s.data.takeWhile (fun c => !(c == ':'))⟩,
   ⟨(s.data.dropWhile (fun c => !(c == ':'))).drop 1⟩)

/-- Python `s.strip('"')`: remove every leading and trailing `"`. -/
def stripQuotes (s : String) : String :=
  ⟨((s.data.dropWhile (fun c => c == '"')).reverse.dropWhile
      (fun c => c == '"')).reverse⟩

/-- Python `" ".join(lines)`. -/
def joinSpace : List String → String
  | [] => ""
  | [s] => s
  | s :: rest => s ++ " " ++ joinSpace rest

/-! ## Narrative parser (`app/ai/openai_provider.py`, `_parse_response`) -/

/-- One dialogue turn, the dict `{"speaker": ..., "text": ...}` appended by
the parser. -/
structure DialogueTurn where
  speaker : String
  text : String
deriving Repr, DecidableEq

/-- The dialogue branch of the per-line classification: the code first
tests `":" in line and not line.startswith('"')`, then splits on the first
colon and accepts when the stripped speaker is non-empty and shorter than
50 characters and the stripped remainder is non-empty.  `none` means the
dialogue branch falls through to the later checks. -/
def dialogueCandidate (line : String) : Option DialogueTurn :=
  if line.data.contains ':' && !pyStartsWith line "\"" then
    let parts := splitColon1 line
    let speaker := pyStrip parts.1
    let text := pyStrip parts.2
    if speaker ≠ "" ∧ text ≠ "" ∧ speaker.length < 50 then
      some ⟨speaker, stripQuotes text⟩
    else
      none
  else
    none

/-- Parser accumulator: the `narration_lines`, `dialogue` and `actions`
lists built up over the lines of the response. -/
structure ParseAcc where
  narrationLines : List String
  dialogue : List DialogueTurn
  actions : List String
deriving Repr, DecidableEq

/-- One iteration of the `for line in lines` loop of `_parse_response`:
strip the line, skip it when blank, otherwise classify it as dialogue
(checked first, with fall-through when its inner guard fails), bracketed
action (`line[1:-1]`, dropped when blank), bullet action (`line[2:]`), or
narration. -/
def parseStep (acc : ParseAcc) (rawLine : String) : ParseAcc :=
  let line := pyStrip rawLine
  if line = "" then acc
  else
    match dialogueCandidate line with
    | some d => { acc with dialogue := acc.dialogue ++ [d] }
    | none =>
      if pyStartsWith line "[" && pyEndsWith line "]" then
        let action := pyStrip ⟨line.data.drop 1 |>.dropLast⟩
        if action = "" then acc
        else { acc with actions := acc.actions ++ [action] }
      else if pyStartsWith line "- " || pyStartsWith line "* " then
        { acc with actions := acc.actions ++ [⟨line.data.drop 2⟩] }
      else
        { acc with narrationLines := acc.narrationLines ++ [line] }

/-- The structured result `(narration, dialogue, actions)` of
`_parse_response`. -/
structure ParsedNarrative where
  narration : Option String
  dialogue : Option (List DialogueTurn)
  actions : Option (List String)
deriving Repr, DecidableEq

/-- The final packaging of the accumulator: narration lines are joined
with single spaces, and empty collections become `None`. -/
def finalizeParse (acc : ParseAcc) : ParsedNarrative :=
  { narration :=
      if acc.narrationLines = [] then none
      else some (joinSpace acc.narrationLines)
    dialogue := if acc.dialogue = [] then none else some acc.dialogue
    actions := if acc.actions = [] then none else some acc.actions }

/-- Embeds `OpenAIProvider._parse_response`: split the content on newlines and
run the classification loop. -/
def parseResponse (content : String) : ParsedNarrative :=
  finalizeParse ((pySplitNl content).foldl parseStep ⟨[], [], []⟩)

/-! ## Data model (`app/models/session.py`, `app/models/story.py`)

Timestamps are modelled as natural numbers; JSON blobs that the claims do
not inspect (`current_state`, `ai_context`, `parameters`) are modelled as
string association lists. -/

/-- The `Story` row, reduced to the columns the orchestrator reads. -/
structure StoryRec where
  id : String
  title : String := ""
deriving Repr, DecidableEq

/-- The `Session` row. -/
structure SessionRec where
  id : String
  storyId : String
  hostId : String
  title : Option String := none
  description : Option String := none
  status : String := "waiting"
  currentState : List (String × String) := []
  aiContext : List (String × String) := []
  maxPlayers : Nat := 4
  isPublic : Bool := false
  allowSpectators : Bool := false
  password : Option String := none
  startedAt : Option Nat := none
  endedAt : Option Nat := none
  lastActivityAt : Nat := 0
  turnCount : Nat := 0
  eventCount : Nat := 0
deriving Repr, DecidableEq

/-- The `SessionPlayer` membership row. -/
structure PlayerRec where
  id : String
  sessionId : String
  userId : String
  role : String := "player"
  leftAt : Option Nat := none
deriving Repr, DecidableEq

/-- Values of the `event_metadata` JSON column that the operations
actually persist: the request `parameters` dict that the degraded route
path attaches to the bare action event (`event_metadata=data.parameters`).
The engine's narration event passes its parsed bundle under the
`metadata=` keyword instead, which is not the mapped column (see
`mkNarrationEvent`), so no narration-metadata shape ever reaches the
column. -/
inductive EventMeta where
  | paramsMeta : List (String × String) → EventMeta
deriving Repr, DecidableEq

/-- The `StoryEvent` row. -/
structure EventRec where
  id : String
  sessionId : String
  characterId : Option String := none
  playerId : Option String := none
  eventType : String
  content : String
  eventMetadata : Option EventMeta := none
  isAiGenerated : Bool := false
  aiModel : Option String := none
  tokensUsed : Nat := 0
deriving Repr, DecidableEq

/-- The database state shared by the handlers.  `events` is kept in
creation order (append-only). -/
structure DB where
  stories : List StoryRec
  sessions : List SessionRec
  players : List PlayerRec
  events : List EventRec
deriving Repr, DecidableEq

/-- Embeds `select(Session).where(Session.id == sid)` with `scalar_one_or_none`. -/
def findSession (db : DB) (sid : String) : Option SessionRec :=
  db.sessions.find? (fun s => s.id == sid)

/-- Committing an updated session row: replace the row with matching id. -/
def storeSession (db : DB) (sid : String) (s' : SessionRec) : DB :=
  { db with sessions := db.sessions.map (fun s => if s.id == sid then s' else s) }

/-- The membership test used by `perform_action`: a `SessionPlayer` row
matching the session and the user exists.  `left_at` is not consulted. -/
def isMemberRow (db : DB) (sid uid : String) : Bool :=
  db.players.any (fun p => p.sessionId == sid && p.userId == uid)

/-! ## Error taxonomy

HTTP error responses raised by the route handlers, named after the spec's
taxonomy where a name corresponds: `notFound` is a 404 (SessionNotFound),
`forbidden` a 403 on the host check, `invalidState` the 400 raised by a
lifecycle endpoint whose status guard fails (InvalidSessionState),
`notActive` the 400 `"Session is not active"` (SessionNotActive),
`notAMember` the 403 `"Not a member of this session"` (NotAMember), and
`badRequest` the remaining 400s (join/leave guards). -/
inductive ApiError where
  | notFound
  | forbidden
  | invalidState
  | notActive
  | notAMember
  | badRequest
deriving Repr, DecidableEq

/-- Outcome of a route handler body. -/
inductive ApiResult (α : Type) where
  | ok : α → ApiResult α
  | err : ApiError → ApiResult α
deriving Repr, DecidableEq

/-- The `ValueError`s raised by `StoryEngine`: "AI provider not
configured", "Session not found: ..." (also raised when only the owning
story is missing, since `get_session_context` returns `None` in both
cases), and "Story not found: ..." from `start_story`.  The route's
`except ValueError` catches all three alike. -/
inductive EngineError where
  | providerNotConfigured
  | sessionNotFound
  | storyNotFound
deriving Repr, DecidableEq

/-- What the generation backend returned: content text, token usage and
model id.  The backend is an external collaborator, so its output is a
parameter of the engine functions; the parsed narration/dialogue/actions
carried by `GenerationResult` are recomputed from `content` via
`parseResponse`, exactly as `OpenAIProvider.generate` does. -/
structure GenOut where
  content : String
  tokensUsed : Nat
  model : String
deriving Repr, DecidableEq

/-! ## Story engine (`app/services/story_engine.py`) -/

/-- The dict returned by `StoryEngine.process_player_action`. -/
structure ActionResult where
  narration : String
  dialogue : Option (List DialogueTurn)
  suggestedActions : Option (List String)
  tokensUsed : Nat
deriving Repr, DecidableEq

/-- The player's `action` event written by `process_player_action`:
authored by the player, not AI generated, no metadata. -/
def mkActionEvent (sid uid action : String) (characterId : Option String)
    (evId : String) : EventRec :=
  { id := evId, sessionId := sid, characterId := characterId,
    playerId := some uid, eventType := "action", content := action,
    eventMetadata := none, isAiGenerated := false, aiModel := none,
    tokensUsed := 0 }

/-- The AI `narration` event written by `process_player_action`: AI
generated, carrying the model id and the token usage.  The source passes
the parsed narration/dialogue/actions bundle as a `metadata=` keyword
argument, but the mapped column of `StoryEvent` is `event_metadata`;
`metadata` is the inherited non-mapped `Base.metadata` class attribute,
so the declarative constructor's `hasattr` check accepts the kwarg and it
lands as a plain instance attribute — the persisted row's
`event_metadata` column stays NULL, which `eventMetadata := none` models. -/
def mkNarrationEvent (sid : String) (gen : GenOut) (evId : String) : EventRec :=
  { id := evId, sessionId := sid, characterId := none, playerId := none,
    eventType := "narration", content := gen.content,
    eventMetadata := none,
    isAiGenerated := true, aiModel := some gen.model,
    tokensUsed := gen.tokensUsed }

/-- Embeds `StoryEngine.process_player_action`.  Control flow of the source: the
provider check comes first; `get_session_context` then returns `None`
(reported as the "Session not found" `ValueError`) when either the session
row or the owning story row is missing — the context text it would build
is read-only input to the generation call, whose output is the `gen`
parameter.  On success the action event, the narration event and the
counter updates are committed together (single `db.commit()`), which the
returned state reflects atomically.  `last_activity_at` is not touched by
this method.  An error return carries the input state unchanged: every
raise happens before anything is added to the db session. -/
def processPlayerAction (db : DB) (hasProvider : Bool) (gen : GenOut)
    (sessionId playerId action : String) (characterId : Option String)
    (actionEvId narrationEvId : String) :
    DB × Except EngineError ActionResult :=
  if !hasProvider then (db, .error .providerNotConfigured)
  else
    match findSession db sessionId with
    | none => (db, .error .sessionNotFound)
    | some session =>
      match db.stories.find? (fun st => st.id == session.storyId) with
      | none => (db, .error .sessionNotFound)
      | some _story =>
        let parsed := parseResponse gen.content
        let db' :=
          storeSession
            { db with events := db.events ++
                [mkActionEvent sessionId playerId action characterId actionEvId,
                 mkNarrationEvent sessionId gen narrationEvId] }
            sessionId
            { session with turnCount := session.turnCount + 1,
                           eventCount := session.eventCount + 2 }
        (db',
         .ok { narration := parsed.narration.getD gen.content,
               dialogue := parsed.dialogue,
               suggestedActions := parsed.actions,
               tokensUsed := gen.tokensUsed })

/-- The dict returned by `StoryEngine.start_story`. -/
structure StartStoryResult where
  sessionId : String
  opening : String
  narration : Option String
  suggestedActions : Option (List String)
  tokensUsed : Nat
deriving Repr, DecidableEq

/-- Python `s[:n]`. -/
def pyTake (s : String) (n : Nat) : String :=
  ⟨s.data.take n⟩

/-- Embeds `StoryEngine.start_story`: creates the session directly in `active`
status with `max_players = 4`, stores exactly one AI `narration` event (no
metadata), seeds `current_state.scene` from the parsed narration (or the
first 500 characters of the raw content), sets `started_at`,
`turn_count = 1` and `event_count = 1`, and commits everything together.
No `SessionPlayer` row is created. -/
def startStory (db : DB) (hasProvider : Bool) (gen : GenOut)
    (storyId hostId : String) (newSessionId newEventId : String) (now : Nat) :
    DB × Except EngineError StartStoryResult :=
  if !hasProvider then (db, .error .providerNotConfigured)
  else
    match db.stories.find? (fun st => st.id == storyId) with
    | none => (db, .error .storyNotFound)
    | some _story =>
      let parsed := parseResponse gen.content
      let scene := parsed.narration.getD (pyTake gen.content 500)
      let session : SessionRec :=
        { id := newSessionId, storyId := storyId, hostId := hostId,
          status := "active", maxPlayers := 4,
          currentState := [("scene", scene), ("started", "true")],
          startedAt := some now, turnCount := 1, eventCount := 1 }
      let ev : EventRec :=
        { id := newEventId, sessionId := newSessionId,
          eventType := "narration", content := gen.content,
          isAiGenerated := true, aiModel := some gen.model,
          tokensUsed := gen.tokensUsed }
      ({ db with sessions := db.sessions ++ [session],
                 events := db.events ++ [ev] },
       .ok { sessionId := newSessionId, opening := gen.content,
             narration := parsed.narration,
             suggestedActions := parsed.actions,
             tokensUsed := gen.tokensUsed })

/-! ## Session routes (`app/routes/session.py`)

Each handler takes the database state and the already-authenticated user
id; fresh UUIDs and the request time are arguments. -/

/-- Route `POST /sessions` (`create_session`): after verifying the story
exists, stores a new `waiting` session and a host `SessionPlayer` row in
one commit. -/
def createSession (db : DB) (storyId : String) (title description : Option String)
    (maxPlayers : Nat) (isPublic allowSpectators : Bool)
    (password : Option String) (userId : String)
    (newSessionId newPlayerId : String) : DB × ApiResult SessionRec :=
  match db.stories.find? (fun st => st.id == storyId) with
  | none => (db, .err .notFound)
  | some _ =>
    let s : SessionRec :=
      { id := newSessionId, storyId := storyId, hostId := userId,
        title := title, description := description, status := "waiting",
        maxPlayers := maxPlayers, isPublic := isPublic,
        allowSpectators := allowSpectators, password := password,
        currentState := [], aiContext := [] }
    let hostPlayer : PlayerRec :=
      { id := newPlayerId, sessionId := newSessionId, userId := userId,
        role := "host" }
    ({ db with sessions := db.sessions ++ [s],
               players := db.players ++ [hostPlayer] },
     .ok s)

/-- Schema `SessionUpdateRequest` with pydantic's `exclude_unset` semantics:
`none` means the field was absent from the PATCH body.  Note that
`status` is a plain optional string with no validation against the
lifecycle state machine. -/
structure SessionUpdateRequest where
  title : Option String := none
  description : Option String := none
  maxPlayers : Option Nat := none
  isPublic : Option Bool := none
  allowSpectators : Option Bool := none
  password : Option String := none
  status : Option String := none
deriving Repr, DecidableEq

/-- Route `PATCH /sessions/\x7bid\x7d` (`update_session`, host only): sets every
field present in the body, including `status`, with no transition check. -/
def updateSession (db : DB) (sid uid : String) (u : SessionUpdateRequest) :
    DB × ApiResult SessionRec :=
  match findSession db sid with
  | none => (db, .err .notFound)
  | some s =>
    if s.hostId != uid then (db, .err .forbidden)
    else
      let s' := { s with
        title := match u.title with | some t => some t | none => s.title
        description :=
          match u.description with | some d => some d | none => s.description
        maxPlayers := u.maxPlayers.getD s.maxPlayers
        isPublic := u.isPublic.getD s.isPublic
        allowSpectators := u.allowSpectators.getD s.allowSpectators
        password := match u.password with | some p => some p | none => s.password
        status := u.status.getD s.status }
      (storeSession db sid s', .ok s')

/-- Route `POST /sessions/\x7bid\x7d/start` (host only): legal only from `waiting`;
sets `started_at`. -/
def startSession (db : DB) (sid uid : String) (now : Nat) :
    DB × ApiResult SessionRec :=
  match findSession db sid with
  | none => (db, .err .notFound)
  | some s =>
    if s.hostId != uid then (db, .err .forbidden)
    else if s.status != "waiting" then (db, .err .invalidState)
    else
      let s' := { s with status := "active", startedAt := some now }
      (storeSession db sid s', .ok s')

/-- Route `POST /sessions/\x7bid\x7d/pause` (host only): legal only from `active`. -/
def pauseSession (db : DB) (sid uid : String) : DB × ApiResult SessionRec :=
  match findSession db sid with
  | none => (db, .err .notFound)
  | some s =>
    if s.hostId != uid then (db, .err .forbidden)
    else if s.status != "active" then (db, .err .invalidState)
    else
      let s' := { s with status := "paused" }
      (storeSession db sid s', .ok s')

/-- Route `POST /sessions/\x7bid\x7d/resume` (host only): legal only from `paused`. -/
def resumeSession (db : DB) (sid uid : String) : DB × ApiResult SessionRec :=
  match findSession db sid with
  | none => (db, .err .notFound)
  | some s =>
    if s.hostId != uid then (db, .err .forbidden)
    else if s.status != "paused" then (db, .err .invalidState)
    else
      let s' := { s with status := "active" }
      (storeSession db sid s', .ok s')

/-- Route `POST /sessions/\x7bid\x7d/end` (host only): legal from `active` or
`paused`; sets `ended_at`. -/
def endSession (db : DB) (sid uid : String) (now : Nat) :
    DB × ApiResult SessionRec :=
  match findSession db sid with
  | none => (db, .err .notFound)
  | some s =>
    if s.hostId != uid then (db, .err .forbidden)
    else if s.status != "active" && s.status != "paused" then
      (db, .err .invalidState)
    else
      let s' := { s with status := "completed", endedAt := some now }
      (storeSession db sid s', .ok s')

/-- Property `Session.is_joinable`: status in waiting or active and player count
below `max_players`. -/
def isJoinable (db : DB) (s : SessionRec) : Bool :=
  (s.status == "waiting" || s.status == "active") &&
    decide ((db.players.filter (fun p => p.sessionId == s.id)).length < s.maxPlayers)

/-- Route `POST /sessions/\x7bid\x7d/join`: rejects non-joinable sessions and
double joins, then stores a `player` role membership row. -/
def joinSession (db : DB) (sid uid : String) (newPlayerId : String) :
    DB × ApiResult SessionRec :=
  match findSession db sid with
  | none => (db, .err .notFound)
  | some s =>
    if !isJoinable db s then (db, .err .badRequest)
    else if isMemberRow db sid uid then (db, .err .badRequest)
    else
      let player : PlayerRec :=
        { id := newPlayerId, sessionId := sid, userId := uid, role := "player" }
      ({ db with players := db.players ++ [player] }, .ok s)

/-- Route `POST /sessions/\x7bid\x7d/leave`: looks up the membership row (404 when
absent), refuses the host, and otherwise only sets `left_at` on the row —
the row itself is kept. -/
def leaveSession (db : DB) (sid uid : String) (now : Nat) :
    DB × ApiResult Unit :=
  match db.players.find? (fun p => p.sessionId == sid && p.userId == uid) with
  | none => (db, .err .notFound)
  | some p =>
    if p.role == "host" then (db, .err .badRequest)
    else
      let players' := db.players.map
        (fun q => if q.id == p.id then { q with leftAt := some now } else q)
      ({ db with players := players' }, .ok ())

/-- The route response body for `POST /sessions/{id}/action`, reduced to
the claim-relevant fields. -/
structure ActionResponse where
  success : Bool
  narrative : Option String
deriving Repr, DecidableEq

/-- The degraded-mode `action` event written by the route's
`except ValueError` branch: the raw action with the request `parameters`
as metadata, not AI generated. -/
def mkFallbackEvent (sid uid action : String) (characterId : Option String)
    (params : List (String × String)) (evId : String) : EventRec :=
  { id := evId, sessionId := sid, characterId := characterId,
    playerId := some uid, eventType := "action", content := action,
    eventMetadata := some (.paramsMeta params), isAiGenerated := false,
    aiModel := none, tokensUsed := 0 }

/-- Route `POST /sessions/\x7bid\x7d/action` (`perform_action`): 404 when the session
is missing, 400 when it is not `active`, 403 when no `SessionPlayer` row
matches the caller (`left_at` is not consulted); then the engine runs.
Any `ValueError` from the engine — the provider-not-configured case but
also the missing-story "Session not found" — lands in the fallback
branch, which stores a single unprocessed `action` event, increments
`turn_count` and `event_count` by 1, sets `last_activity_at`, and answers
with the templated placeholder narrative. -/
def performAction (db : DB) (hasProvider : Bool) (gen : GenOut)
    (sessionId userId action : String) (characterId : Option String)
    (params : List (String × String))
    (actionEvId narrationEvId fallbackEvId : String) (now : Nat) :
    DB × ApiResult ActionResponse :=
  match findSession db sessionId with
  | none => (db, .err .notFound)
  | some session =>
    if session.status != "active" then (db, .err .notActive)
    else if !isMemberRow db sessionId userId then (db, .err .notAMember)
    else
      match processPlayerAction db hasProvider gen sessionId userId action
          characterId actionEvId narrationEvId with
      | (db1, .ok r) =>
        (db1, .ok { success := true, narrative := some r.narration })
      | (_, .error _) =>
        let db' :=
          storeSession
            { db with events := db.events ++
                [mkFallbackEvent sessionId userId action characterId params
                   fallbackEvId] }
            sessionId
            { session with turnCount := session.turnCount + 1,
                           eventCount := session.eventCount + 1,
                           lastActivityAt := now }
        (db',
         .ok { success := true,
               narrative := some ("You " ++ action ++ ". The story continues...") })

/-! ## The lifecycle state machine graph (spec §4.4) -/

/-- The legal status transitions:
`waiting → active → {paused ↔ active} → completed`, with `archived`
reachable from `completed` only. -/
def legalEdge : String → String → Bool
  | "waiting", "active" => true
  | "active", "paused" => true
  | "paused", "active" => true
  | "active", "completed" => true
  | "paused", "completed" => true
  | "completed", "archived" => true
  | _, _ => false

/-! ## Concrete fixtures -/

/-- A stored story. -/
def exStory : StoryRec := { id := "st1", title := "The Hollow Crown" }

/-- An active session of `exStory` hosted by `u1`, three turns in, with
`last_activity_at = 5`. -/
def exActiveSession : SessionRec :=
  { id := "s1", storyId := "st1", hostId := "u1", status := "active",
    lastActivityAt := 5, turnCount := 3, eventCount := 6 }

/-- The host membership row of `exActiveSession`. -/
def exHostRow : PlayerRec :=
  { id := "p1", sessionId := "s1", userId := "u1", role := "host" }

/-- A non-host member of `exActiveSession`. -/
def exPlayerRow : PlayerRec :=
  { id := "p2", sessionId := "s1", userId := "u2", role := "player" }

/-- Database with the story, the active session and both members. -/
def exDb : DB :=
  { stories := [exStory], sessions := [exActiveSession],
    players := [exHostRow, exPlayerRow], events := [] }

/-- The same database with the owning story row missing. -/
def exDbNoStory : DB :=
  { stories := [], sessions := [exActiveSession],
    players := [exHostRow, exPlayerRow], events := [] }

/-- A `waiting` session and its database, for lifecycle counterexamples. -/
def exWaitingSession : SessionRec :=
  { id := "s2", storyId := "st1", hostId := "u1", status := "waiting" }

/-- Database holding only `exWaitingSession`. -/
def exWaitingDb : DB :=
  { stories := [exStory], sessions := [exWaitingSession],
    players := [exHostRow], events := [] }

/-- A `completed` session and its database. -/
def exCompletedSession : SessionRec :=
  { id := "s3", storyId := "st1", hostId := "u1", status := "completed" }

/-- Database holding only `exCompletedSession`. -/
def exCompletedDb : DB :=
  { stories := [exStory], sessions := [exCompletedSession],
    players := [], events := [] }

/-- A generation backend answer used in the concrete runs. -/
def exGen : GenOut :=
  { content := "The sky darkens.", tokensUsed := 7, model := "gpt-4o" }

/-- A generation backend answer whose parse has a non-empty suggested
action, so a narration-metadata payload would be non-trivial. -/
def exGenAct : GenOut :=
  { content := "The sky darkens.\n[Attack]", tokensUsed := 9, model := "gpt-4o" }

/-! ## Helper lemmas -/

/-- Lemma: `find?` over an update that rewrites exactly the rows matching the
predicate: the found row is the rewritten one. -/
theorem find?_mapReplace {α : Type} (p : α → Bool) (g : α → α) :
    ∀ (l : List α) (a : α), l.find? p = some a →
      (∀ x, p x = true → p (g x) = true) →
      (l.map (fun x => if p x then g x else x)).find? p = some (g a) := by
  intro l
  induction l with
  | nil => intro a h _; simp [List.find?] at h
  | cons x xs ih =>
    intro a h hg
    by_cases hx : p x = true
    · rw [List.find?_cons_of_pos _ hx] at h
      cases h
      simp only [List.map_cons, hx, if_true]
      exact List.find?_cons_of_pos _ (hg x hx)
    · have hx' : p x = false := by
        cases hpx : p x
        · rfl
        · exact absurd hpx hx
      rw [List.find?_cons_of_neg _ (by simp [hx'])] at h
      simp only [List.map_cons, hx', if_false, Bool.false_eq_true]
      rw [List.find?_cons_of_neg _ (by simp [hx'])]
      exact ih a h hg

/-- Appending to the fallback-line check of the parser: a trimmed line
that satisfies the dialogue guards is classified as dialogue. -/
theorem parseStep_dialogue (acc : ParseAcc) (l : String) (d : DialogueTurn)
    (hd : dialogueCandidate (pyStrip l) = some d) :
    parseStep acc l = { acc with dialogue := acc.dialogue ++ [d] } := by
  have hne : ¬ pyStrip l = "" := by
    intro h0
    rw [h0] at hd
    simp [dialogueCandidate, pyStartsWith] at hd
  simp only [parseStep, if_neg hne, hd]

/-- The guards of the dialogue branch, assembled into the classification
it produces. -/
theorem dialogueCandidate_eq_some (line : String)
    (h1 : line.data.contains ':' = true)
    (h2 : pyStartsWith line "\"" = false)
    (h3 : pyStrip (splitColon1 line).1 ≠ "")
    (h4 : pyStrip (splitColon1 line).2 ≠ "")
    (h5 : (pyStrip (splitColon1 line).1).length < 50) :
    dialogueCandidate line =
      some ⟨pyStrip (splitColon1 line).1, stripQuotes (pyStrip (splitColon1 line).2)⟩ := by
  simp only [dialogueCandidate, h1, h2, Bool.not_false, Bool.and_self, if_true]
  rw [if_pos ⟨h3, h4, h5⟩]

/-- Looking up a session after committing an updated row with the same id
finds the updated row. -/
theorem findSession_store (db : DB) (sid : String) (s s' : SessionRec)
    (hfind : findSession db sid = some s) (hid : s'.id = s.id) :
    findSession (storeSession db sid s') sid = some s' := by
  have hl : List.find? (fun x => x.id == sid) db.sessions = some s := hfind
  have hsid : (s.id == sid) = true := by
    have h := List.find?_some hl
    exact h
  have hsid' : (s'.id == sid) = true := by rw [hid]; exact hsid
  exact find?_mapReplace (fun x => x.id == sid) (fun _ => s') db.sessions s hl
    (fun _ _ => hsid')

/-! ## Claim theorems -/

/-- C4 counterexample: a bullet line (`"- Run: away"`) and a bracketed
line (`"[Attack: now]"`) that also match the dialogue shape are appended
to `dialogue`, not to `actions` — the dialogue check runs first, so the
claimed bracket-first/bullet-second precedence does not hold. -/
theorem claim4_counterexample :
    parseResponse "- Run: away" =
      { narration := none, dialogue := some [⟨"- Run", "away"⟩], actions := none } ∧
    pyStartsWith (pyStrip "- Run: away") "- " = true ∧
    parseResponse "[Attack: now]" =
      { narration := none, dialogue := some [⟨"[Attack", "now]"⟩], actions := none } ∧
    (pyStartsWith (pyStrip "[Attack: now]") "[" &&
       pyEndsWith (pyStrip "[Attack: now]") "]") = true := by
  decide

/-- C4 (amended): the parser classifies each stripped line in the
precedence order dialogue first, bracketed action second, bullet third,
narration last; in particular a bracketed or bullet line that satisfies
the dialogue shape is appended to `dialogue`. -/
theorem claim4_precedence : ∀ (l : String) (acc : ParseAcc),
    (∀ d, dialogueCandidate (pyStrip l) = some d →
       parseStep acc l = { acc with dialogue := acc.dialogue ++ [d] }) ∧
    (dialogueCandidate (pyStrip l) = none →
     (pyStartsWith (pyStrip l) "[" && pyEndsWith (pyStrip l) "]") = true →
       parseStep acc l =
         (if pyStrip ⟨((pyStrip l).data.drop 1).dropLast⟩ = "" then acc
          else { acc with actions := acc.actions ++
                   [pyStrip ⟨((pyStrip l).data.drop 1).dropLast⟩] })) ∧
    (dialogueCandidate (pyStrip l) = none →
     (pyStartsWith (pyStrip l) "[" && pyEndsWith (pyStrip l) "]") = false →
     (pyStartsWith (pyStrip l) "- " || pyStartsWith (pyStrip l) "* ") = true →
       parseStep acc l =
         { acc with actions := acc.actions ++ [⟨(pyStrip l).data.drop 2⟩] }) ∧
    (pyStrip l ≠ "" →
     dialogueCandidate (pyStrip l) = none →
     (pyStartsWith (pyStrip l) "[" && pyEndsWith (pyStrip l) "]") = false →
     (pyStartsWith (pyStrip l) "- " || pyStartsWith (pyStrip l) "* ") = false →
       parseStep acc l =
         { acc with narrationLines := acc.narrationLines ++ [pyStrip l] }) := by
  intro l acc
  refine ⟨fun d hd => parseStep_dialogue acc l d hd, ?_, ?_, ?_⟩
  · intro hd hbr
    have hne : ¬ pyStrip l = "" := by
      intro h0
      rw [h0] at hbr
      exact absurd hbr (by decide)
    simp only [parseStep, if_neg hne, hd, hbr, if_true]
  · intro hd hbr hbul
    have hne : ¬ pyStrip l = "" := by
      intro h0
      rw [h0] at hbul
      exact absurd hbul (by decide)
    simp only [parseStep, if_neg hne, hd, hbr, hbul, Bool.false_eq_true,
      if_false, if_true]
  · intro hne hd hbr hbul
    simp only [parseStep, if_neg hne, hd, hbr, hbul, Bool.false_eq_true,
      if_false]

/-- C4 witness: the bullet-plus-colon line `"- Run: away"` fed to the
first branch of the precedence theorem lands in `dialogue`. -/
theorem claim4_witness :
    parseStep ⟨[], [], []⟩ "- Run: away" =
      { narrationLines := [], dialogue := [⟨"- Run", "away"⟩], actions := [] } := by
  have h := (claim4_precedence "- Run: away" ⟨[], [], []⟩).1
    ⟨"- Run", "away"⟩ (by decide)
  exact h.trans (by decide)

/-- C5: every line whose stripped form contains a colon, does not start
with a double quote, and splits on the first colon into a non-empty
stripped speaker shorter than 50 characters and a non-empty stripped
remainder, is appended to `dialogue` as the stripped speaker and the
remainder with surrounding quotes stripped; in particular
`"Note: check the map"` parses to dialogue, not narration. -/
theorem claim5_dialogue_shape :
    (∀ (l : String) (acc : ParseAcc),
      (pyStrip l).data.contains ':' = true →
      pyStartsWith (pyStrip l) "\"" = false →
      pyStrip (splitColon1 (pyStrip l)).1 ≠ "" →
      pyStrip (splitColon1 (pyStrip l)).2 ≠ "" →
      (pyStrip (splitColon1 (pyStrip l)).1).length < 50 →
      parseStep acc l =
        { acc with dialogue := acc.dialogue ++
            [⟨pyStrip (splitColon1 (pyStrip l)).1,
              stripQuotes (pyStrip (splitColon1 (pyStrip l)).2)⟩] }) ∧
    parseResponse "Note: check the map" =
      { narration := none, dialogue := some [⟨"Note", "check the map"⟩],
        actions := none } := by
  constructor
  · intro l acc h1 h2 h3 h4 h5
    exact parseStep_dialogue acc l _
      (dialogueCandidate_eq_some (pyStrip l) h1 h2 h3 h4 h5)
  · decide

/-- C5 witness: the dialogue branch applied to the concrete line
`"Note: check the map"`. -/
theorem claim5_witness :
    parseStep ⟨[], [], []⟩ "Note: check the map" =
      { narrationLines := [], dialogue := [⟨"Note", "check the map"⟩],
        actions := [] } := by
  have h := claim5_dialogue_shape.1 "Note: check the map" ⟨[], [], []⟩
    (by decide) (by decide) (by decide) (by decide) (by decide)
  exact h.trans (by decide)

/-- C6: parsing the four-line response `"[Attack]\n- Flee\nGandalf:
\"Run!\"\nThe sky darkens."` yields actions `["Attack", "Flee"]`,
dialogue `[{speaker: "Gandalf", text: "Run!"}]`, and narration
`"The sky darkens."`. -/
theorem claim6_roundtrip :
    parseResponse "[Attack]\n- Flee\nGandalf: \"Run!\"\nThe sky darkens." =
      { narration := some "The sky darkens."
        dialogue := some [⟨"Gandalf", "Run!"⟩]
        actions := some ["Attack", "Flee"] } := by
  decide

/-- C3: every lifecycle transition invoked by the host from a non-source
status — `start` when not `waiting`, `pause` when not `active`, `resume`
when not `paused`, `end` when neither `active` nor `paused`, hence all
four from `completed` — answers the InvalidSessionState 400 and returns
the database unchanged (the guard raises before any mutation). -/
theorem claim3_invalid_transitions (db : DB) (sid uid : String) (now : Nat)
    (s : SessionRec) (hs : findSession db sid = some s)
    (hhost : s.hostId = uid) :
    (s.status ≠ "waiting" →
       startSession db sid uid now = (db, .err .invalidState)) ∧
    (s.status ≠ "active" →
       pauseSession db sid uid = (db, .err .invalidState)) ∧
    (s.status ≠ "paused" →
       resumeSession db sid uid = (db, .err .invalidState)) ∧
    (s.status ≠ "active" ∧ s.status ≠ "paused" →
       endSession db sid uid now = (db, .err .invalidState)) := by
  refine ⟨?_, ?_, ?_, ?_⟩
  · intro h
    simp only [startSession, hs]
    rw [if_neg (by simp [hhost]), if_pos (by simp [bne_iff_ne, h])]
  · intro h
    simp only [pauseSession, hs]
    rw [if_neg (by simp [hhost]), if_pos (by simp [bne_iff_ne, h])]
  · intro h
    simp only [resumeSession, hs]
    rw [if_neg (by simp [hhost]), if_pos (by simp [bne_iff_ne, h])]
  · intro h
    simp only [endSession, hs]
    rw [if_neg (by simp [hhost]), if_pos (by simp [bne_iff_ne, h.1, h.2])]

/-- C3 witness: all four transitions attempted by the host on a
`completed` session fail with the InvalidSessionState 400 and leave the
database unchanged. -/
theorem claim3_witness :
    startSession exCompletedDb "s3" "u1" 1 = (exCompletedDb, .err .invalidState) ∧
    pauseSession exCompletedDb "s3" "u1" = (exCompletedDb, .err .invalidState) ∧
    resumeSession exCompletedDb "s3" "u1" = (exCompletedDb, .err .invalidState) ∧
    endSession exCompletedDb "s3" "u1" 1 = (exCompletedDb, .err .invalidState) := by
  have h := claim3_invalid_transitions exCompletedDb "s3" "u1" 1
    exCompletedSession (by decide) (by decide)
  exact ⟨h.1 (by decide), h.2.1 (by decide), h.2.2.1 (by decide),
    h.2.2.2 ⟨by decide, by decide⟩⟩

/-- C1 counterexample: a successful action on the active session (request
time `now = 99`) appends the action/narration pair and bumps the
counters, but leaves `last_activity_at` at its old value 5 — the claimed
`last_activity_at` update does not happen on the AI path — and the
persisted narration event's `event_metadata` column is NULL: the parsed
dialogue/actions bundle is passed under the non-mapped `metadata=`
keyword and never stored, refuting the claimed metadata payload. -/
theorem claim1_counterexample :
    performAction exDb true exGenAct "s1" "u1" "look around" none [] "e1" "e2" "e3" 99 =
      ({ exDb with
          events := [mkActionEvent "s1" "u1" "look around" none "e1",
                     mkNarrationEvent "s1" exGenAct "e2"],
          sessions := [{ exActiveSession with turnCount := 4, eventCount := 8 }] },
       .ok { success := true, narrative := some "The sky darkens." }) ∧
    (findSession
        (performAction exDb true exGenAct "s1" "u1" "look around" none [] "e1" "e2" "e3" 99).1
        "s1").map SessionRec.lastActivityAt = some 5 ∧
    exActiveSession.lastActivityAt = 5 ∧
    (performAction exDb true exGenAct "s1" "u1" "look around" none [] "e1" "e2" "e3" 99).1.events.map
        EventRec.eventMetadata = [none, none] ∧
    (parseResponse exGenAct.content).actions = some ["Attack"] ∧
    (parseResponse exGenAct.content).narration = some "The sky darkens." := by
  decide

/-- C1 (amended): every successful action submission — session exists and
is active, the caller is a member, a provider is configured, the owning
story exists — commits, in one transaction, exactly the player `action`
event followed by the AI `narration` event carrying the model id and the
token usage but a NULL `event_metadata` column (the parsed
dialogue/actions bundle is passed under the non-mapped `metadata=`
keyword and is not persisted), increments `turn_count` by 1 and
`event_count` by 2, and leaves `last_activity_at` unchanged (the claimed
update of `last_activity_at` is not performed on this path). -/
theorem claim1_turn_commit (db : DB) (gen : GenOut) (sid uid action : String)
    (cid : Option String) (params : List (String × String))
    (e1 e2 e3 : String) (now : Nat) (s : SessionRec) (st : StoryRec)
    (hs : findSession db sid = some s)
    (hactive : s.status = "active")
    (hmem : isMemberRow db sid uid = true)
    (hstory : db.stories.find? (fun t => t.id == s.storyId) = some st) :
    performAction db true gen sid uid action cid params e1 e2 e3 now =
      (storeSession
         { db with events := db.events ++
             [mkActionEvent sid uid action cid e1,
              mkNarrationEvent sid gen e2] }
         sid
         { s with turnCount := s.turnCount + 1, eventCount := s.eventCount + 2 },
       .ok { success := true,
             narrative := some ((parseResponse gen.content).narration.getD gen.content) }) ∧
    findSession
        (performAction db true gen sid uid action cid params e1 e2 e3 now).1 sid =
      some { s with turnCount := s.turnCount + 1, eventCount := s.eventCount + 2 } ∧
    (findSession
        (performAction db true gen sid uid action cid params e1 e2 e3 now).1 sid).map
      SessionRec.lastActivityAt = some s.lastActivityAt ∧
    (mkActionEvent sid uid action cid e1).eventType = "action" ∧
    (mkActionEvent sid uid action cid e1).isAiGenerated = false ∧
    (mkActionEvent sid uid action cid e1).playerId = some uid ∧
    (mkNarrationEvent sid gen e2).eventType = "narration" ∧
    (mkNarrationEvent sid gen e2).isAiGenerated = true ∧
    (mkNarrationEvent sid gen e2).aiModel = some gen.model ∧
    (mkNarrationEvent sid gen e2).tokensUsed = gen.tokensUsed ∧
    (mkNarrationEvent sid gen e2).eventMetadata = none := by
  have hs' : List.find? (fun x => x.id == sid) db.sessions = some s := hs
  have hsid : (s.id == sid) = true := by
    have h := List.find?_some hs'
    exact h
  have hmain : performAction db true gen sid uid action cid params e1 e2 e3 now =
      (storeSession
         { db with events := db.events ++
             [mkActionEvent sid uid action cid e1,
              mkNarrationEvent sid gen e2] }
         sid
         { s with turnCount := s.turnCount + 1, eventCount := s.eventCount + 2 },
       .ok { success := true,
             narrative := some ((parseResponse gen.content).narration.getD gen.content) }) := by
    simp only [performAction, processPlayerAction, hs, hstory, hmem, hactive,
      bne_self_eq_false, Bool.false_eq_true, if_false, Bool.not_true,
      Bool.not_false, if_true]
  have hfind : findSession
      (performAction db true gen sid uid action cid params e1 e2 e3 now).1 sid =
      some { s with turnCount := s.turnCount + 1, eventCount := s.eventCount + 2 } := by
    rw [hmain]
    exact find?_mapReplace (fun x => x.id == sid)
      (fun _ => { s with turnCount := s.turnCount + 1, eventCount := s.eventCount + 2 })
      db.sessions s hs' (fun x _ => hsid)
  exact ⟨hmain, hfind, by rw [hfind]; rfl, rfl, rfl, rfl, rfl, rfl, rfl, rfl, rfl⟩

/-- C1 witness: the amended turn-commit theorem applied to the concrete
active session. -/
theorem claim1_witness :
    performAction exDb true exGen "s1" "u1" "look around" none [] "e1" "e2" "e3" 99 =
      (storeSession
         { exDb with events := exDb.events ++
             [mkActionEvent "s1" "u1" "look around" none "e1",
              mkNarrationEvent "s1" exGen "e2"] }
         "s1"
         { exActiveSession with turnCount := exActiveSession.turnCount + 1,
                                eventCount := exActiveSession.eventCount + 2 },
       .ok { success := true,
             narrative := some ((parseResponse exGen.content).narration.getD exGen.content) }) :=
  (claim1_turn_commit exDb exGen "s1" "u1" "look around" none [] "e1" "e2" "e3" 99
    exActiveSession exStory (by decide) (by decide) (by decide) (by decide)).1

/-- C7: an action submitted to an active session by a member when no
provider is configured commits exactly one non-AI `action` event,
increments `turn_count` and `event_count` by 1 each, stamps
`last_activity_at`, and succeeds with the non-empty templated placeholder
narrative. -/
theorem claim7_degraded_mode (db : DB) (gen : GenOut) (sid uid action : String)
    (cid : Option String) (params : List (String × String))
    (e1 e2 e3 : String) (now : Nat) (s : SessionRec)
    (hs : findSession db sid = some s)
    (hactive : s.status = "active")
    (hmem : isMemberRow db sid uid = true) :
    performAction db false gen sid uid action cid params e1 e2 e3 now =
      (storeSession
         { db with events := db.events ++
             [mkFallbackEvent sid uid action cid params e3] }
         sid
         { s with turnCount := s.turnCount + 1, eventCount := s.eventCount + 1,
                  lastActivityAt := now },
       .ok { success := true,
             narrative := some ("You " ++ action ++ ". The story continues...") }) ∧
    (mkFallbackEvent sid uid action cid params e3).eventType = "action" ∧
    (mkFallbackEvent sid uid action cid params e3).isAiGenerated = false ∧
    ("You " ++ action ++ ". The story continues...") ≠ "" := by
  refine ⟨?_, rfl, rfl, ?_⟩
  · simp only [performAction, processPlayerAction, hs, hmem, hactive,
      bne_self_eq_false, Bool.false_eq_true, if_false, Bool.not_true,
      Bool.not_false, if_true]
  · intro h
    have h' := congrArg String.data h
    rw [String.data_append, String.data_append] at h'
    exact absurd (List.append_eq_nil.mp h').2 (by decide)

/-- C7 witness: the degraded mode on the concrete active session with no
provider configured. -/
theorem claim7_witness :
    performAction exDb false exGen "s1" "u1" "look" none [] "e1" "e2" "e3" 99 =
      (storeSession
         { exDb with events := exDb.events ++
             [mkFallbackEvent "s1" "u1" "look" none [] "e3"] }
         "s1"
         { exActiveSession with turnCount := exActiveSession.turnCount + 1,
                                eventCount := exActiveSession.eventCount + 1,
                                lastActivityAt := 99 },
       .ok { success := true,
             narrative := some ("You " ++ "look" ++ ". The story continues...") }) :=
  (claim7_degraded_mode exDb exGen "s1" "u1" "look" none [] "e1" "e2" "e3" 99
    exActiveSession (by decide) (by decide) (by decide)).1

/-- C8: when the session is active and the caller a member but the owning
story row is missing, the engine does raise its "Session not found"
`ValueError` before any generation output is used and mutates nothing —
but the route's broad `except ValueError` (commented as the
provider-not-configured case) catches it too, so the overall call
persists one `action` event, bumps both counters by 1 and reports
success, instead of failing with SessionNotFound without side effects. -/
theorem claim8_missing_story_fallback :
    processPlayerAction exDbNoStory true exGen "s1" "u1" "look" none "e1" "e2" =
      (exDbNoStory, .error .sessionNotFound) ∧
    performAction exDbNoStory true exGen "s1" "u1" "look" none [] "e1" "e2" "e3" 99 =
      ({ exDbNoStory with
          events := [mkFallbackEvent "s1" "u1" "look" none [] "e3"],
          sessions :=
            [{ exActiveSession with
                turnCount := 4
                eventCount := 7
                lastActivityAt := 99 }] },
       .ok { success := true,
             narrative := some "You look. The story continues..." }) ∧
    (performAction exDbNoStory true exGen "s1" "u1" "look" none [] "e1" "e2" "e3" 99).1.events.length =
      exDbNoStory.events.length + 1 := by
  decide

/-- C2 counterexample: the host PATCHes a `waiting` session straight to
`completed` through `update_session` — a move along no edge of the
lifecycle graph — and the update is stored. -/
theorem claim2_counterexample :
    exWaitingSession.status = "waiting" ∧
    updateSession exWaitingDb "s2" "u1" { status := some "completed" } =
      (storeSession exWaitingDb "s2" { exWaitingSession with status := "completed" },
       .ok { exWaitingSession with status := "completed" }) ∧
    findSession
        (updateSession exWaitingDb "s2" "u1" { status := some "completed" }).1 "s2" =
      some { exWaitingSession with status := "completed" } ∧
    legalEdge "waiting" "completed" = false := by
  decide

/-- C2 (amended): the four lifecycle endpoints move `status` only along
the state-machine graph `waiting → active → {paused ↔ active} →
completed`; the host-only `update_session` endpoint, however, accepts an
arbitrary `status` value with no transition check and can set moves
outside the graph. -/
theorem claim2_lifecycle_graph (db : DB) (sid uid : String) (now : Nat)
    (db' : DB) (r : SessionRec) :
    (startSession db sid uid now = (db', .ok r) →
       ∃ s, findSession db sid = some s ∧ findSession db' sid = some r ∧
         legalEdge s.status r.status = true) ∧
    (pauseSession db sid uid = (db', .ok r) →
       ∃ s, findSession db sid = some s ∧ findSession db' sid = some r ∧
         legalEdge s.status r.status = true) ∧
    (resumeSession db sid uid = (db', .ok r) →
       ∃ s, findSession db sid = some s ∧ findSession db' sid = some r ∧
         legalEdge s.status r.status = true) ∧
    (endSession db sid uid now = (db', .ok r) →
       ∃ s, findSession db sid = some s ∧ findSession db' sid = some r ∧
         legalEdge s.status r.status = true) := by
  refine ⟨?_, ?_, ?_, ?_⟩
  · intro h
    unfold startSession at h
    cases hfind : findSession db sid with
    | none => rw [hfind] at h; simp at h
    | some s =>
      rw [hfind] at h
      dsimp only at h
      by_cases h1 : (s.hostId != uid) = true
      · rw [if_pos h1] at h; simp at h
      · rw [if_neg h1] at h
        by_cases h2 : (s.status != "waiting") = true
        · rw [if_pos h2] at h; simp at h
        · rw [if_neg h2] at h
          simp only [Prod.mk.injEq, ApiResult.ok.injEq] at h
          obtain ⟨hdb, hr⟩ := h
          have hstat : s.status = "waiting" := by
            by_contra hne
            exact h2 (bne_iff_ne.mpr hne)
          refine ⟨s, rfl, ?_, ?_⟩
          · rw [← hdb, ← hr]
            exact findSession_store db sid s _ hfind rfl
          · rw [← hr, hstat]
            rfl
  · intro h
    unfold pauseSession at h
    cases hfind : findSession db sid with
    | none => rw [hfind] at h; simp at h
    | some s =>
      rw [hfind] at h
      dsimp only at h
      by_cases h1 : (s.hostId != uid) = true
      · rw [if_pos h1] at h; simp at h
      · rw [if_neg h1] at h
        by_cases h2 : (s.status != "active") = true
        · rw [if_pos h2] at h; simp at h
        · rw [if_neg h2] at h
          simp only [Prod.mk.injEq, ApiResult.ok.injEq] at h
          obtain ⟨hdb, hr⟩ := h
          have hstat : s.status = "active" := by
            by_contra hne
            exact h2 (bne_iff_ne.mpr hne)
          refine ⟨s, rfl, ?_, ?_⟩
          · rw [← hdb, ← hr]
            exact findSession_store db sid s _ hfind rfl
          · rw [← hr, hstat]
            rfl
  · intro h
    unfold resumeSession at h
    cases hfind : findSession db sid with
    | none => rw [hfind] at h; simp at h
    | some s =>
      rw [hfind] at h
      dsimp only at h
      by_cases h1 : (s.hostId != uid) = true
      · rw [if_pos h1] at h; simp at h
      · rw [if_neg h1] at h
        by_cases h2 : (s.status != "paused") = true
        · rw [if_pos h2] at h; simp at h
        · rw [if_neg h2] at h
          simp only [Prod.mk.injEq, ApiResult.ok.injEq] at h
          obtain ⟨hdb, hr⟩ := h
          have hstat : s.status = "paused" := by
            by_contra hne
            exact h2 (bne_iff_ne.mpr hne)
          refine ⟨s, rfl, ?_, ?_⟩
          · rw [← hdb, ← hr]
            exact findSession_store db sid s _ hfind rfl
          · rw [← hr, hstat]
            rfl
  · intro h
    unfold endSession at h
    cases hfind : findSession db sid with
    | none => rw [hfind] at h; simp at h
    | some s =>
      rw [hfind] at h
      dsimp only at h
      by_cases h1 : (s.hostId != uid) = true
      · rw [if_pos h1] at h; simp at h
      · rw [if_neg h1] at h
        by_cases h2 : (s.status != "active" && s.status != "paused") = true
        · rw [if_pos h2] at h; simp at h
        · rw [if_neg h2] at h
          simp only [Prod.mk.injEq, ApiResult.ok.injEq] at h
          obtain ⟨hdb, hr⟩ := h
          have hstat : s.status = "active" ∨ s.status = "paused" := by
            by_contra hne
            push_neg at hne
            exact h2 (by simp [bne_iff_ne, hne.1, hne.2])
          refine ⟨s, rfl, ?_, ?_⟩
          · rw [← hdb, ← hr]
            exact findSession_store db sid s _ hfind rfl
          · rw [← hr]
            rcases hstat with hstat | hstat <;> rw [hstat] <;> rfl

/-- C2 witness: a legal `start` on the concrete waiting session moves
`waiting → active`, an edge of the graph. -/
theorem claim2_witness :
    ∃ s, findSession exWaitingDb "s2" = some s ∧
      findSession
        (storeSession exWaitingDb "s2"
          { exWaitingSession with status := "active", startedAt := some 7 }) "s2" =
        some { exWaitingSession with status := "active", startedAt := some 7 } ∧
      legalEdge s.status
        ({ exWaitingSession with status := "active", startedAt := some 7 } :
          SessionRec).status = true :=
  (claim2_lifecycle_graph exWaitingDb "s2" "u1" 7
    (storeSession exWaitingDb "s2"
      { exWaitingSession with status := "active", startedAt := some 7 })
    { exWaitingSession with status := "active", startedAt := some 7 }).1
    (by decide)

/-- C9: `start_story` stores its session without any `SessionPlayer` row
(while `create_session` does store a host membership row), so any action
on the new session — by the host included — is rejected with the
NotAMember 403 until the user joins. -/
theorem claim9_start_story_no_membership
    (db : DB) (hp : Bool) (gen : GenOut) (storyId hostId nsid nevid : String)
    (now : Nat) (db' : DB) (out : StartStoryResult)
    (h : startStory db hp gen storyId hostId nsid nevid now = (db', .ok out))
    (hfreshP : ∀ p ∈ db.players, p.sessionId ≠ nsid)
    (hfreshS : ∀ s ∈ db.sessions, s.id ≠ nsid) :
    db'.players = db.players ∧
    (∃ s', findSession db' nsid = some s' ∧ s'.status = "active") ∧
    (∀ (uid : String) (gen2 : GenOut) (action : String) (cid : Option String)
       (params : List (String × String)) (e1 e2 e3 : String) (n : Nat) (hp2 : Bool),
       (performAction db' hp2 gen2 nsid uid action cid params e1 e2 e3 n).2 =
         .err .notAMember) ∧
    (∀ (db0 : DB) (stId : String) (t d pw : Option String) (mx : Nat)
       (pub spect : Bool) (userId nsid0 npid0 : String) (db0' : DB)
       (s0 : SessionRec),
       createSession db0 stId t d mx pub spect pw userId nsid0 npid0 =
         (db0', .ok s0) →
       isMemberRow db0' nsid0 userId = true) := by
  cases hp with
  | false => simp [startStory] at h
  | true =>
    unfold startStory at h
    cases hsto : db.stories.find? (fun st => st.id == storyId) with
    | none => rw [hsto] at h; simp at h
    | some st =>
      rw [hsto] at h
      dsimp only at h
      simp only [Bool.not_true, Bool.false_eq_true, if_false, Prod.mk.injEq,
        Except.ok.injEq] at h
      obtain ⟨hdb, _hout⟩ := h
      have hplayers : db'.players = db.players := by rw [← hdb]
      have hfound : findSession db' nsid = some
          ({ id := nsid, storyId := storyId, hostId := hostId,
             status := "active", maxPlayers := 4,
             currentState :=
               [("scene", (parseResponse gen.content).narration.getD
                   (pyTake gen.content 500)), ("started", "true")],
             startedAt := some now, turnCount := 1,
             eventCount := 1 } : SessionRec) := by
        rw [← hdb]
        show List.find? (fun x => x.id == nsid) (db.sessions ++ [_]) = _
        rw [List.find?_append, List.find?_eq_none.mpr
          (fun x hx => by simp [hfreshS x hx])]
        simp [List.find?]
      have hmemf : ∀ uid, isMemberRow db' nsid uid = false := by
        intro uid
        apply Bool.eq_false_iff.mpr
        intro hc
        obtain ⟨x, hx, hpx⟩ := List.any_eq_true.mp hc
        rw [hplayers] at hx
        simp only [Bool.and_eq_true, beq_iff_eq] at hpx
        exact hfreshP x hx hpx.1
      refine ⟨hplayers, ⟨_, hfound, rfl⟩, ?_, ?_⟩
      · intro uid gen2 action cid params e1 e2 e3 n hp2
        simp only [performAction, hfound, bne_self_eq_false,
          Bool.false_eq_true, if_false, hmemf uid, Bool.not_false, if_true]
      · intro db0 stId t d pw mx pub spect userId nsid0 npid0 db0' s0 h0
        unfold createSession at h0
        cases hsto0 : db0.stories.find? (fun st => st.id == stId) with
        | none => rw [hsto0] at h0; simp at h0
        | some st0 =>
          rw [hsto0] at h0
          dsimp only at h0
          simp only [Prod.mk.injEq, ApiResult.ok.injEq] at h0
          obtain ⟨hdb0, _⟩ := h0
          rw [← hdb0]
          simp [isMemberRow, List.any_append]

/-- C9 witness: after `start_story` on the concrete database the host's
own action on the fresh session is rejected as NotAMember. -/
theorem claim9_witness :
    (startStory exDb true exGen "st1" "u1" "ns1" "ne1" 50).1.players =
      exDb.players ∧
    (performAction (startStory exDb true exGen "st1" "u1" "ns1" "ne1" 50).1
        true exGen "ns1" "u1" "go" none [] "a" "b" "c" 9).2 =
      .err .notAMember := by
  have h := claim9_start_story_no_membership exDb true exGen "st1" "u1" "ns1"
    "ne1" 50 (startStory exDb true exGen "st1" "u1" "ns1" "ne1" 50).1
    { sessionId := "ns1", opening := "The sky darkens.",
      narration := some "The sky darkens.", suggestedActions := none,
      tokensUsed := 7 }
    (by decide) (by decide) (by decide)
  exact ⟨h.1, h.2.2.1 "u1" exGen "go" none [] "a" "b" "c" 9 true⟩

/-- C10: leaving a session only stamps `left_at` and keeps the
`SessionPlayer` row, while the membership check before an action tests
only row existence; hence a non-host player who has left still passes the
membership check, and an action submission by that player is never
rejected with the NotAMember 403. -/
theorem claim10_left_member_not_rejected (db : DB) (sid uid : String)
    (now : Nat) (db' : DB)
    (h : leaveSession db sid uid now = (db', .ok ())) :
    db'.players.length = db.players.length ∧
    isMemberRow db' sid uid = true ∧
    (∀ (hp : Bool) (gen : GenOut) (action : String) (cid : Option String)
       (params : List (String × String)) (e1 e2 e3 : String) (n : Nat),
       (performAction db' hp gen sid uid action cid params e1 e2 e3 n).2 ≠
         .err .notAMember) := by
  unfold leaveSession at h
  cases hfind : db.players.find? (fun p => p.sessionId == sid && p.userId == uid) with
  | none => rw [hfind] at h; simp at h
  | some p =>
    rw [hfind] at h
    dsimp only at h
    by_cases hrole : (p.role == "host") = true
    · rw [if_pos hrole] at h; simp at h
    · rw [if_neg hrole] at h
      simp only [Prod.mk.injEq, and_true] at h
      have hpred : (p.sessionId == sid && p.userId == uid) = true := by
        have hp := List.find?_some hfind
        exact hp
      have hpmem : p ∈ db.players := List.mem_of_find?_eq_some hfind
      have hmem : isMemberRow db' sid uid = true := by
        rw [← h]
        apply List.any_eq_true.mpr
        refine ⟨{ p with leftAt := some now }, ?_, hpred⟩
        have hfp : (fun q : PlayerRec =>
            if q.id == p.id then { q with leftAt := some now } else q) p =
            { p with leftAt := some now } := by simp
        rw [← hfp]
        exact List.mem_map_of_mem _ hpmem
      refine ⟨by rw [← h]; exact List.length_map _ _, hmem, ?_⟩
      intro hp gen action cid params e1 e2 e3 n
      cases hfs : findSession db' sid with
      | none => simp [performAction, hfs]
      | some s2 =>
        by_cases hst : (s2.status != "active") = true
        · simp [performAction, hfs, hst]
        · have hnm : (!isMemberRow db' sid uid) = false := by rw [hmem]; rfl
          cases hpa : processPlayerAction db' hp gen sid uid action cid e1 e2 with
          | mk db1 r =>
            cases r with
            | ok v => simp [performAction, hfs, hst, hnm, hpa]
            | error e => simp [performAction, hfs, hst, hnm, hpa]

/-- C10 witness: the non-host member `u2` leaves the concrete session and
is still accepted by the membership check. -/
theorem claim10_witness :
    ({ exDb with players :=
        [exHostRow, { exPlayerRow with leftAt := some 42 }] } : DB).players.length =
      exDb.players.length ∧
    isMemberRow
      { exDb with players := [exHostRow, { exPlayerRow with leftAt := some 42 }] }
      "s1" "u2" = true ∧
    (performAction
        { exDb with players := [exHostRow, { exPlayerRow with leftAt := some 42 }] }
        true exGen "s1" "u2" "go" none [] "a" "b" "c" 1).2 ≠
      .err .notAMember := by
  have h := claim10_left_member_not_rejected exDb "s1" "u2" 42
    { exDb with players := [exHostRow, { exPlayerRow with leftAt := some 42 }] }
    (by decide)
  exact ⟨h.1, h.2.1, h.2.2 true exGen "go" none [] "a" "b" "c" 1⟩

end StoryStudio
